import Mathlib

set_option maxRecDepth 8000

/-- Characters of a Python string, the representation used throughout this
embedding of lab_5_scrapper/scrapper.py. -/
abbrev PyStr := List Char

/-- Python regex class \s (and str.strip's notion of whitespace) restricted to
the ASCII whitespace characters; the scraped inputs only contain plain spaces. -/
def isPySpace (c : Char) : Bool :=
  c == ' ' || c == '\t' || c == '\n' || c == '\x0b' || c == '\x0c' || c == '\r'

/-- Numeric value of an ASCII digit character. -/
def digitVal (c : Char) : Nat := c.toNat - 48

/-- Python str.strip(): remove leading and trailing whitespace. -/
def pyStrip (s : PyStr) : PyStr :=
  ((s.dropWhile isPySpace).reverse.dropWhile isPySpace).reverse

/-- Helper of pyReplace, structurally recursive on a fuel argument so that the
kernel can evaluate it; every step consumes at least one character, so fuel
equal to the length of the string is always enough. -/
def pyReplaceAux (name num : PyStr) : Nat → PyStr → PyStr
  | 0, s => s
  | _ + 1, [] => []
  | fuel + 1, c :: rest =>
    if name ≠ [] ∧ name.isPrefixOf (c :: rest) = true then
      num ++ pyReplaceAux name num fuel ((c :: rest).drop name.length)
    else
      c :: pyReplaceAux name num fuel rest

/-- Python str.replace(name, num): replace every non-overlapping occurrence of
name in s, scanning left to right. -/
def pyReplace (s name num : PyStr) : PyStr :=
  pyReplaceAux name num s.length s

/-- Python substring containment test (the membership operator on str). -/
def pyContainsSub (name : PyStr) : PyStr → Bool
  | [] => name.isEmpty
  | c :: rest => name.isPrefixOf (c :: rest) || pyContainsSub name rest

/-- Python str.find for a single character: index of the first occurrence, or
-1 when absent. -/
def pyFindChar (s : PyStr) (ch : Char) : Int :=
  match s.findIdx? (· == ch) with
  | some i => (i : Int)
  | none => -1

/-- Python slice s[:i], including the negative-index convention. -/
def pySliceUpto (s : PyStr) (i : Int) : PyStr :=
  if 0 ≤ i then s.take i.toNat else s.take (s.length - min s.length i.natAbs)

/-- Python slice s[i:], including the negative-index convention. -/
def pySliceFrom (s : PyStr) (i : Int) : PyStr :=
  if 0 ≤ i then s.drop i.toNat else s.drop (s.length - min s.length i.natAbs)

/-- Decimal digits of a natural number, as Python's str() of an int. -/
def natToChars (n : Nat) : PyStr := Nat.toDigits 10 n

/-- Fields of a Python datetime produced by datetime.strptime (the scraper
never sets seconds or below). -/
structure PyDateTime where
  year : Nat
  month : Nat
  day : Nat
  hour : Nat
  minute : Nat
deriving DecidableEq

/-- Reference now (datetime.datetime.now()) as read by unify_date_format:
only the day, month and year attributes are used. -/
structure RefDate where
  day : Nat
  month : Nat
  year : Nat

/-- Leap-year rule used by Python's datetime constructor. -/
def isLeapYear (y : Nat) : Bool :=
  y % 4 == 0 && (y % 100 != 0 || y % 400 == 0)

/-- Number of days of a month, as validated by Python's datetime constructor. -/
def daysInMonth (y m : Nat) : Nat :=
  if m = 2 then (if isLeapYear y then 29 else 28)
  else if m = 4 ∨ m = 6 ∨ m = 9 ∨ m = 11 then 30 else 31

/-- Construction step of datetime.strptime: building the datetime validates the
day against the month (and MINYEAR); out of range raises ValueError, here none. -/
def mkPyDateTime (y m d hh mm : Nat) : Option PyDateTime :=
  if 1 ≤ y ∧ d ≤ daysInMonth y m then some ⟨y, m, d, hh, mm⟩ else none

/-- strptime directive %d: the regex (3[01]|[12]\d|0[1-9]|[1-9]), i.e. a
two-digit day 01..31 or else a single digit 1..9. -/
def matchPercentD : PyStr → Option (Nat × PyStr)
  | c1 :: c2 :: rest =>
    if c1.isDigit ∧ c2.isDigit ∧ 1 ≤ 10 * digitVal c1 + digitVal c2 ∧
        10 * digitVal c1 + digitVal c2 ≤ 31 then
      some (10 * digitVal c1 + digitVal c2, rest)
    else if c1.isDigit ∧ 1 ≤ digitVal c1 then
      some (digitVal c1, c2 :: rest)
    else none
  | [c1] => if c1.isDigit ∧ 1 ≤ digitVal c1 then some (digitVal c1, []) else none
  | [] => none

/-- strptime directive %m: the regex (1[0-2]|0[1-9]|[1-9]), i.e. a two-digit
month 01..12 or else a single digit 1..9. -/
def matchPercentM : PyStr → Option (Nat × PyStr)
  | c1 :: c2 :: rest =>
    if c1.isDigit ∧ c2.isDigit ∧ 1 ≤ 10 * digitVal c1 + digitVal c2 ∧
        10 * digitVal c1 + digitVal c2 ≤ 12 then
      some (10 * digitVal c1 + digitVal c2, rest)
    else if c1.isDigit ∧ 1 ≤ digitVal c1 then
      some (digitVal c1, c2 :: rest)
    else none
  | [c1] => if c1.isDigit ∧ 1 ≤ digitVal c1 then some (digitVal c1, []) else none
  | [] => none

/-- strptime directive %H: the regex (2[0-3]|[01]\d|\d), i.e. a two-digit hour
00..23 or else any single digit. -/
def matchPercentH : PyStr → Option (Nat × PyStr)
  | c1 :: c2 :: rest =>
    if c1.isDigit ∧ c2.isDigit ∧ 10 * digitVal c1 + digitVal c2 ≤ 23 then
      some (10 * digitVal c1 + digitVal c2, rest)
    else if c1.isDigit then some (digitVal c1, c2 :: rest)
    else none
  | [c1] => if c1.isDigit then some (digitVal c1, []) else none
  | [] => none

/-- strptime directive %M: the regex ([0-5]\d|\d), i.e. a two-digit minute
00..59 or else any single digit. -/
def matchPercentMin : PyStr → Option (Nat × PyStr)
  | c1 :: c2 :: rest =>
    if c1.isDigit ∧ c2.isDigit ∧ 10 * digitVal c1 + digitVal c2 ≤ 59 then
      some (10 * digitVal c1 + digitVal c2, rest)
    else if c1.isDigit then some (digitVal c1, c2 :: rest)
    else none
  | [c1] => if c1.isDigit then some (digitVal c1, []) else none
  | [] => none

/-- strptime directive %Y: exactly four digits. -/
def matchPercentY : PyStr → Option (Nat × PyStr)
  | a :: b :: c :: d :: rest =>
    if a.isDigit ∧ b.isDigit ∧ c.isDigit ∧ d.isDigit then
      some (1000 * digitVal a + 100 * digitVal b + 10 * digitVal c + digitVal d, rest)
    else none
  | _ => none

/-- Literal character of a strptime format string or of a regex. -/
def litChar (ch : Char) : PyStr → Option PyStr
  | c :: rest => if c = ch then some rest else none
  | [] => none

/-- Whitespace in a strptime format string matches one or more whitespace
characters of the data. -/
def matchFormatSpace : PyStr → Option PyStr
  | c :: rest => if isPySpace c then some (rest.dropWhile isPySpace) else none
  | [] => none

/-- Regex atom \d+ : one or more digits, taken greedily. -/
def takeDigits1 : PyStr → Option PyStr
  | c :: rest => if c.isDigit then some (rest.dropWhile Char.isDigit) else none
  | [] => none

/-- Regex atom \s : exactly one whitespace character. -/
def oneSpace : PyStr → Option PyStr
  | c :: rest => if isPySpace c then some rest else none
  | [] => none

/-- datetime.datetime.strptime(date_str, '%d.%m.%Y'): the whole string must be
consumed, and the time defaults to midnight. -/
def strptimeDotFormat (s : PyStr) : Option PyDateTime := do
  let (d, s) ← matchPercentD s
  let s ← litChar '.' s
  let (m, s) ← matchPercentM s
  let s ← litChar '.' s
  let (y, s) ← matchPercentY s
  if s = [] then mkPyDateTime y m d 0 0 else none

/-- datetime.datetime.strptime(date_str, '%d %m %Y, %H:%M') with the whole
string consumed. -/
def strptimeFullFormat (s : PyStr) : Option PyDateTime := do
  let (d, s) ← matchPercentD s
  let s ← matchFormatSpace s
  let (m, s) ← matchPercentM s
  let s ← matchFormatSpace s
  let (y, s) ← matchPercentY s
  let s ← litChar ',' s
  let s ← matchFormatSpace s
  let (hh, s) ← matchPercentH s
  let s ← litChar ':' s
  let (mm, s) ← matchPercentMin s
  if s = [] then mkPyDateTime y m d hh mm else none

/-- Python re.match(r'\d+:\d+', s): anchored at the start, rest ignored. -/
def matchTimeHead (s : PyStr) : Bool :=
  (do
    let s ← takeDigits1 s
    let s ← litChar ':' s
    let _ ← takeDigits1 s
    pure ()).isSome

/-- Python re.match of the numeric date regex \d+\s\d+\s\d+,\s\d+:\d+ used
inside the month-name branch of unify_date_format. -/
def matchNumericDate (s : PyStr) : Bool :=
  (do
    let s ← takeDigits1 s
    let s ← oneSpace s
    let s ← takeDigits1 s
    let s ← oneSpace s
    let s ← takeDigits1 s
    let s ← litChar ',' s
    let s ← oneSpace s
    let s ← takeDigits1 s
    let s ← litChar ':' s
    let _ ← takeDigits1 s
    pure ()).isSome

/-- Lookup table of the twelve Russian genitive month names of
HTMLParser.unify_date_format, in its insertion order. -/
def monthsTable : List (PyStr × PyStr) :=
  [("января".data, "01".data),
   ("февраля".data, "02".data),
   ("марта".data, "03".data),
   ("апреля".data, "04".data),
   ("мая".data, "05".data),
   ("июня".data, "06".data),
   ("июля".data, "07".data),
   ("августа".data, "08".data),
   ("сентября".data, "09".data),
   ("октября".data, "10".data),
   ("ноября".data, "11".data),
   ("декабря".data, "12".data)]

/-- Month-name loop of HTMLParser.unify_date_format: for each table entry whose
name occurs in the string, substitute the two-digit number, parse directly when
the numeric pattern already matches, and otherwise inject the reference year at
the first comma; the left summand is an early return from the loop. -/
def monthsLoop (todayYear : Nat) : List (PyStr × PyStr) → PyStr → Option PyDateTime ⊕ PyStr
  | [], s => Sum.inr s
  | (name, num) :: rest, s =>
    if pyContainsSub name s then
      let s1 := pyReplace s name num
      if matchNumericDate s1 then Sum.inl (strptimeFullFormat s1)
      else
        let i := pyFindChar s1 ','
        let s2 := pySliceUpto s1 i ++ ' ' :: natToChars todayYear ++ pySliceFrom s1 i
        monthsLoop todayYear rest s2
    else monthsLoop todayYear rest s

/-- HTMLParser.unify_date_format: dispatch on the three date shapes, with
datetime.datetime.now() passed explicitly as the reference date. -/
def unify_date_format (today : RefDate) (date_str : PyStr) : Option PyDateTime :=
  if date_str.contains '.' then
    strptimeDotFormat date_str
  else if matchTimeHead date_str then
    strptimeFullFormat
      (natToChars today.day ++ ' ' :: natToChars today.month ++
        ' ' :: natToChars today.year ++ ',' :: ' ' :: date_str)
  else
    match monthsLoop today.year monthsTable date_str with
    | Sum.inl r => r
    | Sum.inr s => strptimeFullFormat s

/-- Values a JSON configuration field can hold, with Python's isinstance
semantics in mind (bool is a subclass of int). -/
inductive PyVal where
  | null
  | bool (b : Bool)
  | int (n : Int)
  | str (s : PyStr)
  | list (xs : List PyVal)
  | dict (entries : List (PyStr × PyVal))

/-- Python isinstance(v, int): true for int and for bool, which subclasses int. -/
def pyIsInstanceInt : PyVal → Bool
  | .int _ => true
  | .bool _ => true
  | _ => false

/-- Python isinstance(v, bool). -/
def pyIsInstanceBool : PyVal → Bool
  | .bool _ => true
  | _ => false

/-- Python isinstance(v, str). -/
def pyIsInstanceStr : PyVal → Bool
  | .str _ => true
  | _ => false

/-- Python isinstance(v, list). -/
def pyIsInstanceList : PyVal → Bool
  | .list _ => true
  | _ => false

/-- Python isinstance(v, dict). -/
def pyIsInstanceDict : PyVal → Bool
  | .dict _ => true
  | _ => false

/-- Numeric value of a Python int-like value (True compares as 1, False as 0). -/
def pyIntValue : PyVal → Int
  | .int n => n
  | .bool b => if b then 1 else 0
  | _ => 0

/-- Underlying characters of a Python str value. -/
def pyStrValue : PyVal → PyStr
  | .str s => s
  | _ => []

/-- Underlying elements of a Python list value. -/
def pyListValue : PyVal → List PyVal
  | .list xs => xs
  | _ => []

/-- Fields of the parsed JSON configuration document (core_utils ConfigDTO),
before validation, so each field may hold any JSON value. -/
structure ConfigDTO where
  seed_urls : PyVal
  total_articles : PyVal
  headers : PyVal
  encoding : PyVal
  timeout : PyVal
  should_verify_certificate : PyVal
  headless_mode : PyVal

/-- Seven configuration fault kinds raised by Config._validate_config_content,
one per exception class of scrapper.py. -/
inductive ConfigError where
  | incorrectSeedURL
  | numberOfArticlesOutOfRange
  | incorrectNumberOfArticles
  | incorrectHeaders
  | incorrectEncoding
  | incorrectTimeout
  | incorrectVerify
deriving DecidableEq

/-- Modelled from the spec: core_utils.constants.NUM_ARTICLES_UPPER_LIMIT is not
under src; the NumberOfArticlesOutOfRangeError docstring gives the range 1 to 150. -/
def NUM_ARTICLES_UPPER_LIMIT : Int := 150

/-- Modelled from the spec: core_utils.constants.TIMEOUT_LOWER_LIMIT is not
under src; the IncorrectTimeoutError docstring asks for a positive integer. -/
def TIMEOUT_LOWER_LIMIT : Int := 0

/-- Modelled from the spec: core_utils.constants.TIMEOUT_UPPER_LIMIT is not
under src; the IncorrectTimeoutError docstring asks for a value less than 60. -/
def TIMEOUT_UPPER_LIMIT : Int := 60

/-- Python re.match(r'https?://.*', url): the string starts with http:// or
with https://. -/
def matchHttpsStart (s : PyStr) : Bool :=
  "http://".data.isPrefixOf s || "https://".data.isPrefixOf s

/-- Loop over seed_urls in Config._validate_config_content: true when some
element makes the loop raise IncorrectSeedURLError, i.e. the element is not a
string or does not match the URL regex. -/
def seedUrlsLoopRaises : List PyVal → Bool
  | [] => false
  | u :: rest =>
    if !(pyIsInstanceStr u && matchHttpsStart (pyStrValue u)) then true
    else seedUrlsLoopRaises rest

/-- Config._validate_config_content: the checks in source order, returning the
first configuration fault raised, or none when validation passes. -/
def validate_config_content (c : ConfigDTO) : Option ConfigError :=
  if !pyIsInstanceList c.seed_urls then some .incorrectSeedURL
  else if seedUrlsLoopRaises (pyListValue c.seed_urls) then some .incorrectSeedURL
  else if pyIsInstanceInt c.total_articles then
    if pyIntValue c.total_articles > NUM_ARTICLES_UPPER_LIMIT then
      some .numberOfArticlesOutOfRange
    else if pyIsInstanceBool c.total_articles || pyIntValue c.total_articles < 1 then
      some .incorrectNumberOfArticles
    else if !pyIsInstanceDict c.headers then some .incorrectHeaders
    else if !pyIsInstanceStr c.encoding then some .incorrectEncoding
    else if !pyIsInstanceInt c.timeout || pyIntValue c.timeout < TIMEOUT_LOWER_LIMIT
        || pyIntValue c.timeout > TIMEOUT_UPPER_LIMIT then some .incorrectTimeout
    else if !pyIsInstanceBool c.should_verify_certificate
        || !pyIsInstanceBool c.headless_mode then some .incorrectVerify
    else none
  else some .incorrectNumberOfArticles

/-- What a BeautifulSoup query can find on a fetched page: each field is the
result of one of the find calls the scraper issues, none when the element is
absent; anchors lists the href attribute of every a.news-for-copy anchor. -/
structure Soup where
  anchors : List (Option PyStr)
  contentDiv : Option (List PyStr)
  title : Option PyStr
  authorMeta : Option PyStr
  rubric : Option PyStr
  dateDiv : Option PyStr
  datePld : Option PyStr
deriving DecidableEq

/-- HTTP response as the scraper sees it: the status code, and the decoded body
already viewed through BeautifulSoup. -/
structure Response where
  status_code : Nat
  text : Soup
deriving DecidableEq

/-- Modelled from the spec: core_utils.article.article.Article is not under
src; an Article is created empty from its URL and 1-based id, then filled by
the extractor. -/
structure Article where
  url : PyStr
  article_id : Nat
  title : PyStr
  text : PyStr
  author : List PyStr
  topics : List PyStr
  date : Option PyDateTime
deriving DecidableEq

/-- Modelled from the spec: construction Article(url, id) with every content
field empty. -/
def Article.create (url : PyStr) (article_id : Nat) : Article :=
  { url := url, article_id := article_id, title := [], text := [],
    author := [], topics := [], date := Option.none }

/-- Exceptions that can escape the extraction code: attribute access on a None
find result, and ValueError from a failed strptime. -/
inductive Fault where
  | attributeError
  | valueError
deriving DecidableEq

/-- Crawler._extract_url: the href attribute when it is a string, otherwise the
sentinel string. -/
def extract_url (href : Option PyStr) : PyStr :=
  match href with
  | some s => s
  | none => "url not found".data

/-- Canonical article-path prefix checked by Crawler.find_articles. -/
def newsUrlStart : PyStr := "https://amurmedia.ru/news/".data

/-- Inner anchor loop of Crawler.find_articles over one listing page: returns
the updated url list and whether the loop executed the early return that ends
find_articles (the stored count reached the configured target). -/
def scanAnchors (num_articles : Nat) : List (Option PyStr) → List PyStr → List PyStr × Bool
  | [], urls => (urls, false)
  | a :: rest, urls =>
    if num_articles ≤ urls.length then (urls, true)
    else
      let url := extract_url a
      if url ∉ urls ∧ newsUrlStart.isPrefixOf url = true then
        scanAnchors num_articles rest (urls ++ [url])
      else
        scanAnchors num_articles rest urls

/-- Observable side effects of a run: the assets-directory removal and
recreation of prepare_environment, the network request of make_request, and the
two output-sink writes of main. -/
inductive Effect where
  | removeAssets
  | createAssets
  | request (url : PyStr)
  | toRaw (a : Article)
  | toMeta (a : Article)
deriving DecidableEq

/-- Seed loop of Crawler.find_articles: request each seed page, scan its
anchors when the status is 200, and stop everything when the inner loop
returns early; also records the requests issued. -/
def findArticlesGo (num_articles : Nat) (net : PyStr → Response) :
    List PyStr → List PyStr → List PyStr × List Effect
  | [], urls => (urls, [])
  | seed :: rest, urls =>
    let resp := net seed
    if resp.status_code = 200 then
      let scanned := scanAnchors num_articles resp.text.anchors urls
      if scanned.2 then (scanned.1, [Effect.request seed])
      else
        let recursed := findArticlesGo num_articles net rest scanned.1
        (recursed.1, Effect.request seed :: recursed.2)
    else
      let recursed := findArticlesGo num_articles net rest urls
      (recursed.1, Effect.request seed :: recursed.2)

/-- Crawler.find_articles started on a freshly constructed crawler, whose urls
list is empty. -/
def find_articles (num_articles : Nat) (net : PyStr → Response)
    (seed_urls : List PyStr) : List PyStr × List Effect :=
  findArticlesGo num_articles net seed_urls []

/-- HTMLParser._fill_article_with_text: find the content div (attribute access
on a missing div raises), then append every paragraph except the last to the
article text, each followed by a newline. -/
def fill_article_with_text (article_soup : Soup) (a : Article) : Except Fault Article :=
  match article_soup.contentDiv with
  | none => .error .attributeError
  | some paragraphs =>
      .ok { a with text := paragraphs.dropLast.foldl (fun acc p => acc ++ p ++ ['\n']) a.text }

/-- HTMLParser._fill_article_with_meta_information: title, author with the
NOT FOUND sentinel for an empty value, one topic, and the date string taken
from the rubric-link div with the pldate fallback, passed stripped to
unify_date_format; a missing element raises AttributeError and a date that
strptime rejects raises ValueError. -/
def fill_article_with_meta_information (today : RefDate) (article_soup : Soup)
    (a : Article) : Except Fault Article :=
  match article_soup.title with
  | none => .error .attributeError
  | some titleText =>
    match article_soup.authorMeta with
    | none => .error .attributeError
    | some authorText =>
      let authors := if authorText = [] then ["NOT FOUND".data] else [authorText]
      match article_soup.rubric with
      | none => .error .attributeError
      | some rubricText =>
        let dateFound := match article_soup.dateDiv with
          | some d => some d
          | none => article_soup.datePld
        match dateFound with
        | none => .error .attributeError
        | some dateText =>
          match unify_date_format today (pyStrip dateText) with
          | none => .error .valueError
          | some dt =>
            .ok { a with
                  title := titleText
                  author := authors
                  topics := a.topics ++ [rubricText]
                  date := some dt }

/-- HTMLParser.parse: fetch the page and extract, with no check of the response
status code; any fault of the fill steps escapes. -/
def HTMLParser.parse (today : RefDate) (full_url : PyStr) (article_id : Nat)
    (resp : Response) : Except Fault Article :=
  let article_bs := resp.text
  match fill_article_with_text article_bs (Article.create full_url article_id) with
  | .error f => .error f
  | .ok a => fill_article_with_meta_information today article_bs a

/-- prepare_environment: remove the assets directory when it exists, then
create it. -/
def prepare_environment (base_path_exists : Bool) : List Effect :=
  (if base_path_exists then [Effect.removeAssets] else []) ++ [Effect.createAssets]

/-- Per-article loop of main: request and parse each discovered URL with
1-based ids, writing raw text and metadata for each parsed article; an
exception escaping parse aborts the remaining iterations. -/
def mainArticlesLoop (today : RefDate) (net : PyStr → Response) :
    Nat → List PyStr → List Effect × Except Fault Unit
  | _, [] => ([], .ok ())
  | i, url :: rest =>
    let resp := net url
    match HTMLParser.parse today url i resp with
    | .error f => ([Effect.request url], .error f)
    | .ok art =>
      let (effs, r) := mainArticlesLoop today net (i + 1) rest
      (Effect.request url :: Effect.toRaw art :: Effect.toMeta art :: effs, r)

/-- Faults that can end a run of main: a configuration fault raised while the
Config is constructed, or an exception escaping the crawl loop. -/
inductive RunError where
  | config (e : ConfigError)
  | fault (f : Fault)
deriving DecidableEq

/-- Extracted seed URLs after validation passed (every element is then a
string). -/
def configSeedUrls (c : ConfigDTO) : List PyStr :=
  (pyListValue c.seed_urls).map pyStrValue

/-- Entry point main: construct and validate the Config, prepare the assets
directory, discover article URLs, then parse and persist each one; the
returned list holds the side effects performed, in order. -/
def pyMain (c : ConfigDTO) (today : RefDate) (assetsExists : Bool)
    (net : PyStr → Response) : List Effect × Except RunError Unit :=
  match validate_config_content c with
  | some e => ([], .error (RunError.config e))
  | none =>
    let envEffs := prepare_environment assetsExists
    let num := (pyIntValue c.total_articles).toNat
    let (urls, crawlEffs) := find_articles num net (configSeedUrls c)
    match mainArticlesLoop today net 1 urls with
    | (parseEffs, .error f) => (envEffs ++ crawlEffs ++ parseEffs, .error (RunError.fault f))
    | (parseEffs, .ok _) => (envEffs ++ crawlEffs ++ parseEffs, .ok ())

/-- Joining a list of paragraph texts with line breaks, as the words of the
claim about body text describe it: a single newline between consecutive
paragraphs and nothing after the last. -/
def specJoinedWithLineBreaks : List PyStr → PyStr
  | [] => []
  | [p] => p
  | p :: ps => p ++ '\n' :: specJoinedWithLineBreaks ps

/-- Seed-URL shapes the amended seed claim rejects: not a list, or a list with
an element that is not an http(s) string; the empty list is not rejected. -/
def seedUrlsBad : PyVal → Bool
  | .list us => us.any (fun u => !(pyIsInstanceStr u && matchHttpsStart (pyStrValue u)))
  | _ => true

/-- Configuration that passes every validation check. -/
def goodConfig : ConfigDTO :=
  { seed_urls := .list [.str "https://amurmedia.ru/".data]
    total_articles := .int 1
    headers := .dict []
    encoding := .str "utf-8".data
    timeout := .int 30
    should_verify_certificate := .bool true
    headless_mode := .bool false }

/-- Configuration asking for zero articles, an integer below the lower bound. -/
def zeroArticlesConfig : ConfigDTO :=
  { goodConfig with total_articles := .int 0 }

/-- Configuration asking for two hundred articles, above the upper limit. -/
def overLimitConfig : ConfigDTO :=
  { goodConfig with total_articles := .int 200 }

/-- Configuration whose seed_urls is the empty list. -/
def emptySeedsConfig : ConfigDTO :=
  { goodConfig with seed_urls := .list [] }

/-- Configuration with a seed URL of a non-http scheme. -/
def badSeedConfig : ConfigDTO :=
  { goodConfig with seed_urls := .list [.str "ftp://amurmedia.ru/".data] }

/-- Fixed reference date used by the concrete runs. -/
def refToday : RefDate := ⟨1, 6, 2024⟩

/-- Page on which no BeautifulSoup query finds anything, such as an error
page. -/
def emptySoup : Soup :=
  { anchors := []
    contentDiv := Option.none
    title := Option.none
    authorMeta := Option.none
    rubric := Option.none
    dateDiv := Option.none
    datePld := Option.none }

/-- Network on which every request returns a 404 error page. -/
def nullNet : PyStr → Response := fun _ => ⟨404, emptySoup⟩

/-- Listing page holding a single article anchor. -/
def c6ListingSoup : Soup :=
  { emptySoup with anchors := [some "https://amurmedia.ru/news/broken1".data] }

/-- Network for the non-200 article scenario: the seed listing answers 200 with
one article link, and every other URL answers 404 with an error page. -/
def c6Net : PyStr → Response := fun u =>
  if u = "https://amurmedia.ru/".data then ⟨200, c6ListingSoup⟩ else ⟨404, emptySoup⟩

/-- Listing page pointing at the one-paragraph article. -/
def c10ListingSoup : Soup :=
  { emptySoup with anchors := [some "https://amurmedia.ru/news/short1".data] }

/-- Article page whose content block holds exactly one paragraph. -/
def c10ArticleSoup : Soup :=
  { anchors := []
    contentDiv := some ["Единственный абзац".data]
    title := some "Заголовок".data
    authorMeta := some "Автор".data
    rubric := some "Новости".data
    dateDiv := some "15.03.2024".data
    datePld := Option.none }

/-- Network for the one-paragraph article scenario. -/
def c10Net : PyStr → Response := fun u =>
  if u = "https://amurmedia.ru/".data then ⟨200, c10ListingSoup⟩
  else if u = "https://amurmedia.ru/news/short1".data then ⟨200, c10ArticleSoup⟩
  else ⟨404, emptySoup⟩

/-- Article page whose content block holds exactly two paragraphs. -/
def c7TwoParagraphSoup : Soup :=
  { emptySoup with contentDiv := some ["Первый абзац".data, "Последний абзац".data] }

/-- Article page whose content block holds three paragraphs. -/
def c7ThreeParagraphSoup : Soup :=
  { emptySoup with
    contentDiv := some ["Один".data, "Два".data, "Три".data] }

/-- Article page whose author meta element is present with an empty value and
whose remaining metadata parses. -/
def c8Soup : Soup :=
  { anchors := []
    contentDiv := some ["Абзац".data]
    title := some "Заголовок".data
    authorMeta := some []
    rubric := some "Новости".data
    dateDiv := some "15.03.2024".data
    datePld := Option.none }

/-- Article produced by the metadata pass on c8Soup. -/
def c8Article : Article :=
  { url := "https://amurmedia.ru/news/a8".data
    article_id := 1
    title := "Заголовок".data
    text := []
    author := ["NOT FOUND".data]
    topics := ["Новости".data]
    date := some ⟨2024, 3, 15, 0, 0⟩ }

/-- Article produced for the one-paragraph page of the c10Net run. -/
def c10OutArticle : Article :=
  { url := "https://amurmedia.ru/news/short1".data
    article_id := 1
    title := "Заголовок".data
    text := []
    author := ["Автор".data]
    topics := ["Новости".data]
    date := some ⟨2024, 3, 15, 0, 0⟩ }

/-- Helper: when a date string contains no dot and does not start with HH:MM,
unify_date_format reads only the year of the reference date. -/
lemma unify_date_format_year_only (t t' : RefDate) (hy : t.year = t'.year) (s : PyStr)
    (h1 : s.contains '.' = false) (h2 : matchTimeHead s = false) :
    unify_date_format t s = unify_date_format t' s := by
  unfold unify_date_format
  rw [h1, h2, hy]
  simp

/-- C1: the date normalizer dispatches on the three shapes in priority order:
a dotted string parses as DD.MM.YYYY at midnight for every reference date, a
bare HH:MM composes the reference day, month and year with the given time, a
Russian month name is substituted and the string parses directly when the
numeric pattern already matches, with the reference year injected at the comma
otherwise; witnessed by the four specified evaluations. -/
theorem c1_unify_date_format_examples :
    (∀ ref : RefDate,
      unify_date_format ref "15.03.2024".data = some ⟨2024, 3, 15, 0, 0⟩) ∧
    unify_date_format ⟨1, 6, 2024⟩ "14:30".data = some ⟨2024, 6, 1, 14, 30⟩ ∧
    (∀ d m : Nat,
      unify_date_format ⟨d, m, 2024⟩ "10 марта, 14:30".data = some ⟨2024, 3, 10, 14, 30⟩) ∧
    (∀ ref : RefDate,
      unify_date_format ref "10 марта 2024, 14:30".data = some ⟨2024, 3, 10, 14, 30⟩) := by
  refine ⟨fun ref => rfl, by decide, fun d m => ?_, fun ref => rfl⟩
  rw [unify_date_format_year_only ⟨d, m, 2024⟩ ⟨0, 0, 2024⟩ rfl _ (by decide) (by decide)]
  decide

/-- C4: evaluation of the validator at the inputs that decide the claim: the
integer 0, which is below the lower bound, is answered with
IncorrectNumberOfArticlesError rather than the NumberOfArticlesOutOfRangeError
the claim (and the exception docstrings) prescribe, while an integer above the
upper limit is answered with NumberOfArticlesOutOfRangeError as claimed. -/
theorem c4_total_articles_validation_behaviour :
    validate_config_content zeroArticlesConfig = some ConfigError.incorrectNumberOfArticles ∧
    validate_config_content overLimitConfig = some ConfigError.numberOfArticlesOutOfRange := by
  exact ⟨rfl, rfl⟩

/-- Helper: the seed-URL loop raises exactly when some element is not an
http(s) string. -/
lemma seedUrlsLoopRaises_eq_any (us : List PyVal) :
    seedUrlsLoopRaises us
      = us.any (fun u => !(pyIsInstanceStr u && matchHttpsStart (pyStrValue u))) := by
  induction us with
  | nil => rfl
  | cons u rest ih =>
    rw [List.any_cons]
    unfold seedUrlsLoopRaises
    cases h : (pyIsInstanceStr u && matchHttpsStart (pyStrValue u)) with
    | true => simpa using ih
    | false => simp

/-- C5 counterexample: the configuration whose seed_urls is the empty list
passes validation with no fault at all, so the empty list is not rejected with
IncorrectSeedURLError as the claim states. -/
theorem c5_empty_seed_urls_accepted :
    validate_config_content emptySeedsConfig = Option.none := by
  exact rfl

/-- C5 (amended): validation fails with IncorrectSeedURLError whenever
seed_urls is not a list, or is a list holding an element that is not a string
matching the http(s) pattern; a non-empty condition is not checked, so the
empty list passes this check. -/
theorem c5_seed_urls_validation :
    ∀ c : ConfigDTO, seedUrlsBad c.seed_urls = true →
      validate_config_content c = some ConfigError.incorrectSeedURL := by
  intro c h
  cases hv : c.seed_urls with
  | list us =>
    have h2 : us.any (fun u => !(pyIsInstanceStr u && matchHttpsStart (pyStrValue u))) = true := by
      rw [hv] at h; exact h
    unfold validate_config_content
    rw [hv]
    simp only [pyIsInstanceList, pyListValue]
    simp only [seedUrlsLoopRaises_eq_any, h2]
    simp
  | null => unfold validate_config_content; rw [hv]; simp [pyIsInstanceList]
  | bool b => unfold validate_config_content; rw [hv]; simp [pyIsInstanceList]
  | int n => unfold validate_config_content; rw [hv]; simp [pyIsInstanceList]
  | str s => unfold validate_config_content; rw [hv]; simp [pyIsInstanceList]
  | dict entries => unfold validate_config_content; rw [hv]; simp [pyIsInstanceList]

/-- C5 witness: a list holding an ftp URL is rejected with
IncorrectSeedURLError. -/
theorem c5_seed_urls_validation_witness :
    validate_config_content badSeedConfig = some ConfigError.incorrectSeedURL :=
  c5_seed_urls_validation badSeedConfig (by decide)

/-- C6: evaluation of a run on which the single article page answers 404 with
an error body: parse performs no status check, the fill steps raise
AttributeError on the missing content block, the fault escapes through main,
and the run ends with no article written for this or any later URL. -/
theorem c6_non200_article_aborts_run :
    pyMain goodConfig refToday true c6Net =
      ([Effect.removeAssets, Effect.createAssets,
        Effect.request "https://amurmedia.ru/".data,
        Effect.request "https://amurmedia.ru/news/broken1".data],
       Except.error (RunError.fault Fault.attributeError)) := by
  exact rfl

/-- C9: whenever the configuration fails validation with one of the seven
faults, main performs no side effect at all: the assets directory is not
removed or created and no request is issued; effects happen only after a
configuration validated successfully. -/
theorem c9_config_faults_before_effects :
    ∀ (c : ConfigDTO) (today : RefDate) (assetsExists : Bool) (net : PyStr → Response)
      (e : ConfigError), validate_config_content c = some e →
      pyMain c today assetsExists net = ([], Except.error (RunError.config e)) := by
  intro c today assetsExists net e h
  unfold pyMain
  rw [h]

/-- C9 witness: the run on the below-range configuration performs no effect. -/
theorem c9_config_faults_before_effects_witness :
    pyMain zeroArticlesConfig refToday true nullNet
      = ([], Except.error (RunError.config ConfigError.incorrectNumberOfArticles)) :=
  c9_config_faults_before_effects zeroArticlesConfig refToday true nullNet
    ConfigError.incorrectNumberOfArticles rfl

/-- Helper: the anchor loop never grows the url list beyond the target count,
because the early-return check precedes every insertion. -/
lemma scanAnchors_length_le (num : Nat) :
    ∀ (anchors : List (Option PyStr)) (urls : List PyStr), urls.length ≤ num →
      ((scanAnchors num anchors urls).1).length ≤ num := by
  intro anchors
  induction anchors with
  | nil => intro urls h; simpa [scanAnchors] using h
  | cons a rest ih =>
    intro urls h
    unfold scanAnchors
    by_cases hge : num ≤ urls.length
    · simp only [if_pos hge]
      exact h
    · by_cases hc : extract_url a ∉ urls ∧ newsUrlStart.isPrefixOf (extract_url a) = true
      · simp only [if_neg hge, if_pos hc]
        apply ih
        simp only [List.length_append, List.length_singleton]
        omega
      · simp only [if_neg hge, if_neg hc]
        exact ih urls h

/-- Helper: the seed loop preserves the target bound on the url list length. -/
lemma findArticlesGo_length_le (num : Nat) (net : PyStr → Response) :
    ∀ (seeds : List PyStr) (urls : List PyStr), urls.length ≤ num →
      ((findArticlesGo num net seeds urls).1).length ≤ num := by
  intro seeds
  induction seeds with
  | nil => intro urls h; simpa [findArticlesGo] using h
  | cons seed rest ih =>
    intro urls h
    unfold findArticlesGo
    by_cases hs : (net seed).status_code = 200
    · rw [if_pos hs]
      have hlen := scanAnchors_length_le num (net seed).text.anchors urls h
      by_cases hb : (scanAnchors num (net seed).text.anchors urls).2 = true
      · rw [if_pos hb]
        exact hlen
      · rw [if_neg hb]
        exact ih _ hlen
    · rw [if_neg hs]
      exact ih urls h

/-- C2: for every target count, network and seed list, the url list stored by
find_articles never holds more elements than the configured target. -/
theorem c2_find_articles_never_exceeds_target :
    ∀ (num : Nat) (net : PyStr → Response) (seeds : List PyStr),
      ((find_articles num net seeds).1).length ≤ num := by
  intro num net seeds
  exact findArticlesGo_length_le num net seeds [] (Nat.zero_le num)

/-- Helper: the anchor loop preserves freedom from duplicates and the
article-path-prefix property of every stored url. -/
lemma scanAnchors_inv (num : Nat) :
    ∀ (anchors : List (Option PyStr)) (urls : List PyStr), urls.Nodup →
      (∀ u ∈ urls, newsUrlStart.isPrefixOf u = true) →
      ((scanAnchors num anchors urls).1.Nodup ∧
        ∀ u ∈ (scanAnchors num anchors urls).1, newsUrlStart.isPrefixOf u = true) := by
  intro anchors
  induction anchors with
  | nil => intro urls h1 h2; exact ⟨h1, h2⟩
  | cons a rest ih =>
    intro urls h1 h2
    unfold scanAnchors
    by_cases hge : num ≤ urls.length
    · simp only [if_pos hge]
      exact ⟨h1, h2⟩
    · by_cases hc : extract_url a ∉ urls ∧ newsUrlStart.isPrefixOf (extract_url a) = true
      · simp only [if_neg hge, if_pos hc]
        apply ih
        · simp [List.nodup_append, h1, hc.1]
        · intro u hu
          rcases List.mem_append.mp hu with h | h
          · exact h2 u h
          · rw [List.mem_singleton.mp h]
            exact hc.2
      · simp only [if_neg hge, if_neg hc]
        exact ih urls h1 h2

/-- Helper: the seed loop preserves freedom from duplicates and the
article-path-prefix property of every stored url. -/
lemma findArticlesGo_inv (num : Nat) (net : PyStr → Response) :
    ∀ (seeds : List PyStr) (urls : List PyStr), urls.Nodup →
      (∀ u ∈ urls, newsUrlStart.isPrefixOf u = true) →
      ((findArticlesGo num net seeds urls).1.Nodup ∧
        ∀ u ∈ (findArticlesGo num net seeds urls).1, newsUrlStart.isPrefixOf u = true) := by
  intro seeds
  induction seeds with
  | nil => intro urls h1 h2; exact ⟨h1, h2⟩
  | cons seed rest ih =>
    intro urls h1 h2
    unfold findArticlesGo
    by_cases hs : (net seed).status_code = 200
    · rw [if_pos hs]
      have hscInv := scanAnchors_inv num (net seed).text.anchors urls h1 h2
      by_cases hb : (scanAnchors num (net seed).text.anchors urls).2 = true
      · rw [if_pos hb]
        exact hscInv
      · rw [if_neg hb]
        exact ih _ hscInv.1 hscInv.2
    · rw [if_neg hs]
      exact ih urls h1 h2

/-- Helper: a url starting with the article-path prefix is not the sentinel. -/
lemma articlePathStart_ne_sentinel (u : PyStr) (h : newsUrlStart.isPrefixOf u = true) :
    u ≠ "url not found".data := by
  intro heq
  subst heq
  exact absurd h (by decide)

/-- C3: for every target count, network and seed list, the stored url list is
free of duplicates, every stored url starts with the canonical article-path
prefix, and the sentinel produced for an anchor with no href is never stored. -/
theorem c3_find_articles_nodup_prefix_no_sentinel :
    ∀ (num : Nat) (net : PyStr → Response) (seeds : List PyStr),
      (find_articles num net seeds).1.Nodup ∧
      (find_articles num net seeds).1.all (fun u => newsUrlStart.isPrefixOf u) = true ∧
      (find_articles num net seeds).1.all
        (fun u => decide (u ≠ "url not found".data)) = true := by
  intro num net seeds
  have hinv := findArticlesGo_inv num net seeds [] List.nodup_nil (by intro u hu; cases hu)
  refine ⟨hinv.1, ?_, ?_⟩
  · rw [List.all_eq_true]
    intro u hu
    exact hinv.2 u hu
  · rw [List.all_eq_true]
    intro u hu
    simpa using articlePathStart_ne_sentinel u (hinv.2 u hu)

/-- Helper: folding paragraphs into the text, each followed by a newline,
equals the newline-join of the paragraphs with one trailing newline. -/
lemma foldl_append_newline :
    ∀ (l : List PyStr) (init : PyStr), l ≠ [] →
      l.foldl (fun acc p => acc ++ p ++ ['\n']) init
        = init ++ specJoinedWithLineBreaks l ++ ['\n'] := by
  intro l
  induction l with
  | nil => intro init h; exact absurd rfl h
  | cons x rest ih =>
    intro init _
    cases rest with
    | nil =>
      simp [specJoinedWithLineBreaks]
    | cons y t =>
      rw [List.foldl_cons, ih _ (by simp)]
      simp [specJoinedWithLineBreaks, List.append_assoc]

/-- C7 counterexample: on a two-paragraph content block the extracted body text
carries a trailing newline, so it is not the newline-join of the first
paragraph that the claim states. -/
theorem c7_trailing_newline_counterexample :
    fill_article_with_text c7TwoParagraphSoup
        (Article.create "https://amurmedia.ru/news/a7".data 1)
      = Except.ok { Article.create "https://amurmedia.ru/news/a7".data 1 with
          text := "Первый абзац\n".data } ∧
    "Первый абзац\n".data ≠ specJoinedWithLineBreaks ["Первый абзац".data] := by
  exact ⟨rfl, by decide⟩

/-- C7 (amended): for a content block of more than one paragraph, the final
paragraph is always excluded and the body text is the first paragraphs joined
with line breaks followed by one trailing line break. -/
theorem c7_body_excludes_last_paragraph :
    ∀ (url : PyStr) (article_id : Nat) (soup : Soup) (ps : List PyStr),
      soup.contentDiv = some ps → 1 < ps.length →
      fill_article_with_text soup (Article.create url article_id)
        = Except.ok { Article.create url article_id with
            text := specJoinedWithLineBreaks ps.dropLast ++ ['\n'] } := by
  intro url article_id soup ps hc hlen
  have hne : ps.dropLast ≠ [] := by
    have hdl : ps.dropLast.length = ps.length - 1 := List.length_dropLast ps
    intro hE
    rw [hE] at hdl
    simp at hdl
    omega
  have hstep : fill_article_with_text soup (Article.create url article_id)
      = Except.ok { Article.create url article_id with
          text := ps.dropLast.foldl (fun acc p => acc ++ p ++ ['\n']) [] } := by
    unfold fill_article_with_text
    rw [hc]
    rfl
  rw [hstep, foldl_append_newline ps.dropLast [] hne]
  rfl

/-- C7 witness: the three-paragraph content block produces the first two
paragraphs joined with a line break and a trailing line break. -/
theorem c7_body_excludes_last_paragraph_witness :
    fill_article_with_text c7ThreeParagraphSoup
        (Article.create "https://amurmedia.ru/news/b7".data 2)
      = Except.ok { Article.create "https://amurmedia.ru/news/b7".data 2 with
          text := specJoinedWithLineBreaks
              (["Один".data, "Два".data, "Три".data]).dropLast ++ ['\n'] } :=
  c7_body_excludes_last_paragraph "https://amurmedia.ru/news/b7".data 2
    c7ThreeParagraphSoup ["Один".data, "Два".data, "Три".data] rfl (by decide)

/-- C8: whenever the metadata pass completes, the author field is a non-empty
list, and when the author meta value was empty it is exactly the NOT FOUND
sentinel list. -/
theorem c8_author_sentinel :
    ∀ (today : RefDate) (soup : Soup) (a a2 : Article) (t : PyStr),
      fill_article_with_meta_information today soup a = Except.ok a2 →
      soup.authorMeta = some t →
      a2.author = (if t = [] then ["NOT FOUND".data] else [t]) ∧ a2.author ≠ [] := by
  intro today soup a a2 t h hmeta
  unfold fill_article_with_meta_information at h
  rw [hmeta] at h
  cases hT : soup.title with
  | none => rw [hT] at h; exact absurd h (by simp)
  | some titleText =>
    rw [hT] at h
    cases hR : soup.rubric with
    | none => rw [hR] at h; exact absurd h (by simp)
    | some rubricText =>
      rw [hR] at h
      cases hD : (match soup.dateDiv with
          | some d => some d
          | none => soup.datePld) with
      | none => rw [hD] at h; exact absurd h (by simp)
      | some dateText =>
        rw [hD] at h
        dsimp only at h
        cases hU : unify_date_format today (pyStrip dateText) with
        | none => rw [hU] at h; exact absurd h (by simp)
        | some dt =>
          rw [hU] at h
          injection h with h2
          subst h2
          constructor
          · rfl
          · by_cases ht : t = [] <;> simp [ht]

/-- C8 witness: on the page whose author meta value is empty the metadata pass
completes and the author field is the sentinel list. -/
theorem c8_author_sentinel_witness :
    c8Article.author = ["NOT FOUND".data] ∧ c8Article.author ≠ [] :=
  c8_author_sentinel refToday c8Soup
    (Article.create "https://amurmedia.ru/news/a8".data 1) c8Article [] rfl rfl

/-- C10: a content block of exactly one paragraph leaves the body text empty
(the slice removes the only paragraph), and a run exists on which such an
empty-body article is handed to the output sink. -/
theorem c10_single_paragraph_empty_text :
    ∀ (url : PyStr) (article_id : Nat) (soup : Soup) (p : PyStr),
      soup.contentDiv = some [p] →
      (fill_article_with_text soup (Article.create url article_id)
          = Except.ok (Article.create url article_id) ∧
        ∃ art : Article, Effect.toRaw art ∈ (pyMain goodConfig refToday true c10Net).1 ∧
          art.text = []) := by
  intro url article_id soup p hc
  constructor
  · unfold fill_article_with_text
    rw [hc]
    rfl
  · exact ⟨c10OutArticle, by decide, rfl⟩

/-- C10 witness: the one-paragraph page leaves the article text empty and the
run on c10Net writes an empty-body article to the sink. -/
theorem c10_single_paragraph_empty_text_witness :
    (fill_article_with_text c10ArticleSoup
        (Article.create "https://amurmedia.ru/news/short1".data 1)
      = Except.ok (Article.create "https://amurmedia.ru/news/short1".data 1)) ∧
    (∃ art : Article, Effect.toRaw art ∈ (pyMain goodConfig refToday true c10Net).1 ∧
      art.text = []) :=
  c10_single_paragraph_empty_text "https://amurmedia.ru/news/short1".data 1
    c10ArticleSoup "Единственный абзац".data rfl
